import Mathlib

/-!
Shallow embedding of the middleware-service repository:
the Conversion & Forwarding Gateway (src/server.ts) and the
Batch Attachment Orchestrator (the NetSuite Suitelet).
Bytes are `Nat` (values < 256), header sets are insertion-ordered
association lists mirroring JavaScript object semantics.
-/

namespace Middleware

/-- Value of one base64 alphabet character (RFC 4648 table), `none` for any
character outside the alphabet.  Mirrors the per-character table of the
base64 decoder behind `Buffer.from(s, "base64")`. -/
def base64Val (c : Char) : Option Nat :=
  if 'A' ≤ c ∧ c ≤ 'Z' then some (c.toNat - 65)
  else if 'a' ≤ c ∧ c ≤ 'z' then some (c.toNat - 97 + 26)
  else if '0' ≤ c ∧ c ≤ '9' then some (c.toNat - 48 + 52)
  else if c = '+' then some 62
  else if c = '/' then some 63
  else none

/-- Sextet values of the longest prefix of the character list made of
base64 alphabet characters; decoding stops silently at the first
character outside the alphabet (including `=` padding). -/
def validPrefixVals : List Char → List Nat
  | [] => []
  | c :: cs =>
    match base64Val c with
    | some v => v :: validPrefixVals cs
    | none => []

/-- Pack 6-bit sextet values into 8-bit bytes, dropping trailing bits that
do not fill a whole byte (4 sextets give 3 bytes, 3 give 2, 2 give 1,
1 gives none). -/
def sextetsToBytes : List Nat → List Nat
  | a :: b :: c :: d :: rest =>
    (a * 4 + b / 16) :: ((b % 16) * 16 + c / 4) :: ((c % 4) * 64 + d) :: sextetsToBytes rest
  | [a, b] => [a * 4 + b / 16]
  | [a, b, c] => [a * 4 + b / 16, (b % 16) * 16 + c / 4]
  | _ => []

/-- Modelled from the spec: `Buffer.from(base64Data, "base64")`, the Node
primitive the gateway calls, is not part of this repository; the spec
states the decode accepts any decodeable prefix and silently truncates
the remainder, and never rejects its input.  This total function decodes
the longest valid prefix accordingly. -/
def bufferFromBase64 (s : String) : List Nat :=
  sextetsToBytes (validPrefixVals s.data)

/-! ## JavaScript object semantics for header maps -/

/-- A header map: insertion-ordered association list of key/value pairs,
as a JavaScript object holds them (keys unique in any object literal). -/
abbrev HeaderMap := List (String × String)

/-- Assigning `k := v` on a JavaScript object: replace the value in place
if the key exists, otherwise append the pair at the end. -/
def objSet (m : HeaderMap) (k v : String) : HeaderMap :=
  if m.any (fun p => p.1 = k) then
    m.map (fun p => if p.1 = k then (k, v) else p)
  else
    m ++ [(k, v)]

/-- Spread merge of two JavaScript objects, as in the source's
`\x7b...formData.getHeaders(), ...(forward.headers || \x7b\x7d)\x7d`:
entries of `b` are assigned one by one on top of `a`, so a key of `b`
that also occurs in `a` overrides the value from `a`. -/
def objMerge (a b : HeaderMap) : HeaderMap :=
  b.foldl (fun m p => objSet m p.1 p.2) a

/-- Property lookup on a JavaScript object (first occurrence of the key). -/
def objGet (m : HeaderMap) (k : String) : Option String :=
  (m.find? (fun p => p.1 = k)).map Prod.snd

/-- JavaScript default for a possibly-absent string using `||`:
`undefined` and the empty string (both falsy) take the default. -/
def falsyOr (o : Option String) (d : String) : String :=
  match o with
  | none => d
  | some s => if s = "" then d else s

/-- JavaScript truthiness filter on a possibly-absent string:
`some s` exactly when the value is present and non-empty. -/
def truthy (o : Option String) : Option String :=
  match o with
  | none => none
  | some s => if s = "" then none else some s

/-! ## Gateway data model (src/server.ts) -/

/-- A JSON value, for opaque bodies that the gateway relays verbatim. -/
inductive JVal where
  | null : JVal
  | bool (b : Bool) : JVal
  | num (n : Int) : JVal
  | str (s : String) : JVal
  | arr (xs : List JVal) : JVal
  | obj (fields : List (String × JVal)) : JVal
deriving Repr

/-- One appended field of a `FormData` multipart body: field name, raw
bytes, and the `filename`/`contentType` options passed to `append`. -/
structure FormPart where
  fieldName : String
  bytes : List Nat
  filename : String
  contentType : String
deriving Repr, DecidableEq

/-- Body of an outbound axios request. -/
inductive OutboundData where
  | form (parts : List FormPart) : OutboundData
  | jsonBody (b : Option JVal) : OutboundData
deriving Repr

/-- The outbound HTTP request the gateway hands to `axios.request`. -/
structure OutboundRequest where
  url : String
  method : String
  headers : HeaderMap
  data : OutboundData
deriving Repr

/-- Result of one outbound exchange: with `validateStatus: () => true`
axios resolves for every status code, so only a transport-level failure
rejects (and is thereby thrown into the `catch`). -/
inductive ExchangeResult where
  | completed (status : Nat) (headers : HeaderMap) (data : JVal) : ExchangeResult
  | transportFailure (detail : String) : ExchangeResult
deriving Repr

/-- Body of a gateway HTTP response, covering every literal the handlers
in src/server.ts send. -/
inductive RespBody where
  | errorMsg (msg : String) : RespBody
  | unauthorized (err msg : String) : RespBody
  | jsonParseError (err details : String) : RespBody
  | envelope (status : Nat) (headers : HeaderMap) (data : JVal) : RespBody
  | binary (bytes : List Nat) : RespBody
  | statusOk : RespBody
deriving Repr

/-- The gateway's HTTP response to its caller: status, headers set via
`res.setHeader`, and body. -/
structure GatewayResponse where
  status : Nat
  headers : HeaderMap
  body : RespBody
deriving Repr

/-- Errors passed to `next(error)` and reaching the error-handling
middleware chain: a body-parser `SyntaxError` (with a `body` property),
or any other thrown value (axios transport errors included), carrying
its detail. -/
inductive AppError where
  | jsonSyntax (details : String) : AppError
  | other (detail : String) : AppError
deriving Repr, DecidableEq

/-- The two error-handler middlewares at the end of src/server.ts, in
order: a JSON-parse `SyntaxError` gets 400 with its message; every other
error falls to the basic handler, which logs it internally and answers
500 with the fixed generic body. -/
def errorChain : AppError → GatewayResponse
  | .jsonSyntax details =>
    ⟨400, [], .jsonParseError "Invalid JSON in request body" details⟩
  | .other _ =>
    ⟨500, [], .errorMsg "Internal server error"⟩

/-- Relaying an outbound exchange, shared by both forwarding endpoints:
a completed exchange of any status is mirrored as
`res.status(X).json(\x7bstatus, headers, data\x7d)`; a thrown transport
failure goes to `next(error)` and down the error chain. -/
def relayResult : ExchangeResult → GatewayResponse
  | .completed st hs d => ⟨st, [], .envelope st hs d⟩
  | .transportFailure detail => errorChain (.other detail)

/-! ## POST /api/forward -/

/-- Request body of POST /api/forward.  Fields the caller may omit are
`Option`; `body` is opaque JSON relayed as-is. -/
structure ForwardRequestBody where
  targetUrl : Option String
  method : Option String
  headers : Option HeaderMap
  body : Option JVal
deriving Repr

/-- The outbound request POST /api/forward issues: `some` exactly when
`targetUrl` is truthy; `method` defaults to "POST" and `headers` to the
empty object by destructuring defaults, `body` is relayed as-is. -/
def forwardOutbound (req : ForwardRequestBody) : Option OutboundRequest :=
  match truthy req.targetUrl with
  | none => none
  | some url =>
    some { url := url
         , method := req.method.getD "POST"
         , headers := req.headers.getD []
         , data := .jsonBody req.body }

/-- Handler of POST /api/forward.  `net` is the network: the value
`axios.request` resolves (or rejects) with for the outbound request. -/
def forwardHandler (net : OutboundRequest → ExchangeResult)
    (req : ForwardRequestBody) : GatewayResponse :=
  match forwardOutbound req with
  | none => ⟨400, [], .errorMsg "targetUrl is required"⟩
  | some outb => relayResult (net outb)

/-! ## POST /api/convert/base64-to-binary -/

/-- The `forward` object of a convert request.  The TypeScript interface
declares `url : string`, but at runtime the JSON field may be absent, so
it is `Option` here and the code guards with `forward?.url` truthiness. -/
structure ConvertForwardConfig where
  url : Option String
  method : Option String
  headers : Option HeaderMap
deriving Repr, DecidableEq

/-- Request body of POST /api/convert/base64-to-binary. -/
structure ConvertRequestBody where
  base64Data : Option String
  fileName : Option String
  mimeType : Option String
  forward : Option ConvertForwardConfig
deriving Repr, DecidableEq

/-- Headers `FormData.getHeaders()` produces for a fresh form: the single
lowercase `content-type` entry carrying the generated boundary. -/
def formDataHeaders (boundary : String) : HeaderMap :=
  [("content-type", "multipart/form-data; boundary=" ++ boundary)]

/-- The outbound request the convert handler issues when it forwards:
`some` exactly when `base64Data` is truthy and `forward?.url` is truthy.
The multipart body holds the one appended `attachment` field; the header
map spreads `formData.getHeaders()` first and `forward.headers` second.
`boundary` stands for the boundary the `FormData` instance generated. -/
def convertOutbound (boundary : String) (req : ConvertRequestBody) :
    Option OutboundRequest :=
  match truthy req.base64Data with
  | none => none
  | some b64 =>
    match req.forward with
    | none => none
    | some fwd =>
      match truthy fwd.url with
      | none => none
      | some url =>
        some { url := url
             , method := falsyOr fwd.method "POST"
             , headers := objMerge (formDataHeaders boundary) (fwd.headers.getD [])
             , data := .form [{ fieldName := "attachment"
                              , bytes := bufferFromBase64 b64
                              , filename := req.fileName.getD "file.bin"
                              , contentType := req.mimeType.getD "application/octet-stream" }] }

/-- Handler of POST /api/convert/base64-to-binary.  Missing or empty
`base64Data` is rejected with 400; with a truthy `forward?.url` the
decoded bytes go out as multipart and the upstream response is relayed;
otherwise the decoded bytes are returned directly with the
`Content-Type` and `Content-Disposition` headers. -/
def convertHandler (net : OutboundRequest → ExchangeResult)
    (boundary : String) (req : ConvertRequestBody) : GatewayResponse :=
  match truthy req.base64Data with
  | none => ⟨400, [], .errorMsg "base64Data is required"⟩
  | some b64 =>
    match convertOutbound boundary req with
    | some outb => relayResult (net outb)
    | none =>
      { status := 200
      , headers :=
          [ ("Content-Type", req.mimeType.getD "application/octet-stream")
          , ("Content-Disposition",
             "attachment; filename=\"" ++ req.fileName.getD "file.bin" ++ "\"") ]
      , body := .binary (bufferFromBase64 b64) }

/-! ## Auth middleware, health route -/

/-- The configured shared secret: `process.env.API_KEY || "NSZoho@8080"`,
so an unset or empty environment variable falls back to the default. -/
def apiKeyOf (env : Option String) : String :=
  falsyOr env "NSZoho@8080"

/-- The 401 response sent on a failed API-key check. -/
def unauthorizedResp : GatewayResponse :=
  ⟨401, [], .unauthorized "Unauthorized"
    "Invalid or missing API key. Please provide valid x-api-key header."⟩

/-- The API-key validation middleware: requests to `/health` or `/` skip
the check; every other request must carry `x-api-key` equal to the
configured key, and a missing, empty, or mismatched key gets the 401
response.  `none` means the middleware calls `next()`. -/
def authGate (apiKey : String) (path : String) (providedKey : Option String) :
    Option GatewayResponse :=
  if path = "/health" ∨ path = "/" then none
  else
    match truthy providedKey with
    | none => some unauthorizedResp
    | some k =>
      if k = apiKey then none
      else some unauthorizedResp

/-- Handler of GET /health: unconditionally 200 with the ok body. -/
def healthHandler : GatewayResponse :=
  ⟨200, [], .statusOk⟩

/-- The routed operation paths registered on the express app. -/
def operationPaths : List String :=
  ["/api/forward", "/api/convert/base64-to-binary", "/health", "/api/test"]

/-! ## Batch Attachment Orchestrator (NetSuite Suitelet) -/

/-- The `getMimeType` mapping of the Suitelet: NetSuite file-type tag to
MIME type, `none` (JavaScript `undefined`) for unmapped tags. -/
def mimeMap : List (String × String) :=
  [ ("PDF", "application/pdf")
  , ("PLAINTEXT", "text/plain")
  , ("CSV", "text/csv")
  , ("XMLDOC", "application/xml")
  , ("PNGIMAGE", "image/png")
  , ("JPGIMAGE", "image/jpeg")
  , ("GIFIMAGE", "image/gif")
  , ("TIFFIMAGE", "image/tiff")
  , ("BMPIMAGE", "image/bmp")
  , ("WORD", "application/msword")
  , ("EXCEL", "application/vnd.ms-excel")
  , ("ZIP", "application/zip")
  , ("GZIP", "application/gzip") ]

/-- Lookup in the `mimeMap` object literal. -/
def getMimeType (nsType : String) : Option String :=
  (mimeMap.find? (fun p => p.1 = nsType)).map Prod.snd

/-- One discovered attachment as the Suitelet sees it after
`file.load`: display name, NetSuite file-type tag, and base64 contents
from `getContents()`. -/
structure NsFile where
  name : String
  fileType : String
  contents : String
deriving Repr, DecidableEq

/-- Configuration the Suitelet fixes before the loop: Zoho endpoint
pieces and the access token fetched once for the whole batch. -/
structure OrchestratorConfig where
  zohoCudApi : String
  zohoId : String
  organizationId : String
  accessToken : String
deriving Repr, DecidableEq

/-- The middleware payload the Suitelet builds for one attachment whose
tag resolved to `mime`. -/
def buildPayload (cfg : OrchestratorConfig) (f : NsFile) (mime : String) :
    ConvertRequestBody :=
  { base64Data := some f.contents
  , fileName := some f.name
  , mimeType := some mime
  , forward := some
      { url := some (cfg.zohoCudApi ++ "bills/" ++ cfg.zohoId ++ "/attachment"
                     ++ cfg.organizationId)
      , method := some "POST"
      , headers := some
          [ ("Authorization", "Zoho-oauthtoken " ++ cfg.accessToken)
          , ("Accept", "*/*") ] } }

/-- What the Suitelet observes from one `https.post` to the middleware
followed by `JSON.parse(response.body)`: either the parsed envelope
(`code` the middleware HTTP status, `status` the relayed Zoho status,
`data` the relayed Zoho body), or a thrown exception rendered by
`e.toString()`. -/
structure MiddlewareEnvelope where
  code : Nat
  status : Nat
  data : JVal
deriving Repr

/-- Result of one gateway call as seen inside the Suitelet's `try`. -/
inductive CallResult where
  | ok (resp : MiddlewareEnvelope) : CallResult
  | threw (e : String) : CallResult
deriving Repr

/-- One per-attachment outcome object pushed onto `results`. -/
inductive Outcome where
  | skipped (fileName reason : String) : Outcome
  | success (fileName : String) (middlewareStatus zohoStatus : Nat)
      (zohoResponse : JVal) (message : String) : Outcome
  | failed (fileName : String) (middlewareStatus zohoStatus : Nat)
      (zohoResponse : JVal) (message : String) : Outcome
  | error (fileName e message : String) : Outcome
deriving Repr

/-- The `fileName` field every outcome object carries. -/
def Outcome.fileName : Outcome → String
  | .skipped n _ => n
  | .success n _ _ _ _ => n
  | .failed n _ _ _ _ => n
  | .error n _ _ => n

/-- The body of the search callback for one attachment: resolve the MIME
type (unmapped tag is skipped), build the payload, call the middleware
(`call` gives the call's result for the payload sent), and classify:
a throw is `error`; Zoho status 200 or 201 is `success`; any other
status is `failed` carrying that status. -/
def processFile (cfg : OrchestratorConfig)
    (call : ConvertRequestBody → CallResult) (f : NsFile) : Outcome :=
  match getMimeType f.fileType with
  | none => .skipped f.name ("Unsupported file type: " ++ f.fileType)
  | some mime =>
    match call (buildPayload cfg f mime) with
    | .threw e => .error f.name e "Failed to call middleware or parse response"
    | .ok r =>
      if r.status = 200 ∨ r.status = 201 then
        .success f.name r.code r.status r.data "File uploaded successfully to Zoho"
      else
        .failed f.name r.code r.status r.data
          ("Zoho upload failed with status: " ++ toString r.status)

/-- The final aggregate object the Suitelet writes to the response. -/
structure BatchReport where
  status : String
  filesProcessed : Nat
  timestamp : String
  results : List Outcome
deriving Repr

/-- The Suitelet's run over the discovered attachments: every search
result is processed (the callback always returns `true`, so iteration
never stops early), each pushing exactly one outcome, and the final
report counts `results.length`.  `ts` stands for
`new Date().toISOString()`. -/
def runBatch (cfg : OrchestratorConfig)
    (call : ConvertRequestBody → CallResult) (ts : String)
    (files : List NsFile) : BatchReport :=
  let results := files.map (processFile cfg call)
  { status := "completed"
  , filesProcessed := results.length
  , timestamp := ts
  , results := results }

/-! ## The older embedded gateway variant

The second document embedded in src/server.ts is an earlier revision of
the gateway whose convert endpoint forwards the raw decoded bytes with
explicit `Content-Type`/`Content-Length` headers instead of a multipart
body.  It is modelled for comparison; the running service is the first
revision above. -/

/-- Body of an outbound request of the older variant: the raw buffer. -/
def rawBody (bytes : List Nat) : List Nat := bytes

/-- Header map of the older variant's outbound request: the literal
spreads explicit `Content-Type`/`Content-Length` entries first and the
caller's `forward.headers` second. -/
def convertOutboundHeadersV2 (mimeType : String) (len : Nat)
    (fwdHeaders : HeaderMap) : HeaderMap :=
  objMerge [("Content-Type", mimeType), ("Content-Length", toString len)] fwdHeaders

/-! ## Concrete sample values (used to instantiate the theorems) -/

/-- A forward config whose caller headers collide with the multipart
framing header key emitted by `FormData.getHeaders()`. -/
def fwdConflict : ConvertForwardConfig :=
  { url := some "http://upstream.example/attach"
  , method := none
  , headers := some [("content-type", "text/plain"), ("Authorization", "Bearer tok")] }

/-- Convert request whose caller headers collide with the framing header. -/
def reqConflict : ConvertRequestBody :=
  { base64Data := some "aGVsbG8="
  , fileName := none
  , mimeType := none
  , forward := some fwdConflict }

/-- A forward config carrying only an authorization header. -/
def fwdAuth : ConvertForwardConfig :=
  { url := some "http://upstream.example/attach"
  , method := none
  , headers := some [("Authorization", "Zoho-oauthtoken tok")] }

/-- Convert request with an authorization-only forward config. -/
def reqAuth : ConvertRequestBody :=
  { base64Data := some "aGVsbG8="
  , fileName := some "test.txt"
  , mimeType := some "text/plain"
  , forward := some fwdAuth }

/-- Convert request having no forward target. -/
def reqNoForward : ConvertRequestBody :=
  { base64Data := some "aGVsbG8="
  , fileName := some "test.txt"
  , mimeType := some "text/plain"
  , forward := none }

/-- Convert request whose forward object is present with an empty url. -/
def reqEmptyUrl : ConvertRequestBody :=
  { base64Data := some "aGVsbG8="
  , fileName := some "test.txt"
  , mimeType := some "text/plain"
  , forward := some { url := some ""
                    , method := some "PUT"
                    , headers := some [("Authorization", "Bearer t")] } }

/-- Convert request with malformed base64 and no forward target. -/
def reqMalformed : ConvertRequestBody :=
  { base64Data := some "!!!", fileName := none, mimeType := none, forward := none }

/-- Convert request with malformed base64 and a forward target. -/
def reqMalformedFwd : ConvertRequestBody :=
  { base64Data := some "!!!", fileName := none, mimeType := none
  , forward := some fwdAuth }

/-- Generic-forward request naming a target. -/
def freqSample : ForwardRequestBody :=
  { targetUrl := some "http://upstream.example/hook"
  , method := none
  , headers := some [("Authorization", "Bearer t")]
  , body := some (JVal.str "payload") }

/-- A network on which the upstream completes every exchange with 404. -/
def net404 : OutboundRequest → ExchangeResult :=
  fun _ => .completed 404 [("x-request-id", "r1")] (.str "not found")

/-- A network on which the upstream completes every exchange with 201. -/
def net201 : OutboundRequest → ExchangeResult :=
  fun _ => .completed 201 [] (.obj [("id", .str "123")])

/-- A network on which every exchange fails at the transport level. -/
def netRefused : OutboundRequest → ExchangeResult :=
  fun _ => .transportFailure "connect ECONNREFUSED 51.20.245.218:443"

/-- Sample orchestrator configuration. -/
def cfgSample : OrchestratorConfig :=
  { zohoCudApi := "https://books.zoho.com/api/v3/"
  , zohoId := "2950483000000649068"
  , organizationId := "?organization_id=1"
  , accessToken := "tok" }

/-- A discovered PDF attachment. -/
def filePdf : NsFile :=
  { name := "bill.pdf", fileType := "PDF", contents := "aGVsbG8=" }

/-- A discovered attachment with an unmapped NetSuite type tag. -/
def fileMp3 : NsFile :=
  { name := "song.mp3", fileType := "MP3", contents := "aGVsbG8=" }

/-- Gateway call observation whose relayed upstream status is 201. -/
def callOk201 : ConvertRequestBody → CallResult :=
  fun _ => .ok { code := 201, status := 201, data := .obj [("id", .str "123")] }

/-- Gateway call observation whose relayed upstream status is 429. -/
def callOk429 : ConvertRequestBody → CallResult :=
  fun _ => .ok { code := 429, status := 429, data := .str "rate limited" }

/-- Gateway call that throws in transport or parsing. -/
def callThrew : ConvertRequestBody → CallResult :=
  fun _ => .threw "SSS_REQUEST_TIME_EXCEEDED"

/-! ## Lemmas on the JavaScript object operations -/

theorem objGet_nil (q : String) : objGet [] q = none := rfl

theorem objGet_cons (p : String × String) (m : HeaderMap) (q : String) :
    objGet (p :: m) q = if p.1 = q then some p.2 else objGet m q := by
  by_cases h : p.1 = q
  · simp [objGet, List.find?_cons_of_pos, h]
  · simp [objGet, List.find?_cons_of_neg, h]

theorem objGet_eq_none_of_not_mem_keys (m : HeaderMap) (q : String)
    (h : q ∉ m.map Prod.fst) : objGet m q = none := by
  induction m with
  | nil => rfl
  | cons p m ih =>
    simp only [List.map_cons, List.mem_cons, not_or] at h
    rw [objGet_cons, if_neg (fun hpq => h.1 hpq.symm)]
    exact ih h.2

theorem objGet_append (m₁ m₂ : HeaderMap) (q : String) :
    objGet (m₁ ++ m₂) q = (objGet m₁ q).or (objGet m₂ q) := by
  induction m₁ with
  | nil => simp [objGet, Option.or]
  | cons p m ih =>
    by_cases h : p.1 = q <;> simp [objGet_cons, h, ih, Option.or]

theorem objGet_replaceAll (m : HeaderMap) (k v q : String) :
    objGet (m.map (fun p => if p.1 = k then (k, v) else p)) q =
      if q = k then (objGet m k).map (fun _ => v) else objGet m q := by
  induction m with
  | nil => by_cases h : q = k <;> simp [objGet, h]
  | cons p m ih =>
    by_cases hpk : p.1 = k <;> by_cases hqk : q = k <;>
      by_cases hpq : p.1 = q <;>
      simp_all [List.map_cons, objGet_cons]

theorem objGet_isSome_iff_any (m : HeaderMap) (k : String) :
    (objGet m k).isSome ↔ m.any (fun p => p.1 = k) = true := by
  induction m with
  | nil => simp [objGet]
  | cons p m ih =>
    by_cases h : p.1 = k <;> simp [objGet_cons, h, ih]

theorem objGet_objSet (m : HeaderMap) (k v q : String) :
    objGet (objSet m k v) q = if q = k then some v else objGet m q := by
  unfold objSet
  by_cases hany : m.any (fun p => p.1 = k) = true
  · rw [if_pos hany, objGet_replaceAll]
    by_cases hqk : q = k
    · subst hqk
      obtain ⟨w, hw⟩ := Option.isSome_iff_exists.1 ((objGet_isSome_iff_any m q).2 hany)
      simp [hw]
    · simp [hqk]
  · rw [if_neg hany, objGet_append]
    have hnone : objGet m k = none := by
      by_contra h
      exact hany ((objGet_isSome_iff_any m k).1 (Option.isSome_iff_ne_none.2 h))
    by_cases hqk : q = k
    · subst hqk
      rw [hnone, if_pos rfl]
      have h1 : objGet [(q, v)] q = some v := by
        rw [objGet_cons]
        simp
      rw [h1]
      rfl
    · have hkq : ¬ (k = q) := fun h => hqk h.symm
      have h1 : objGet [(k, v)] q = none := by
        rw [objGet_cons]
        simp [hkq, objGet]
      rw [h1, if_neg hqk]
      cases objGet m q <;> rfl

theorem objMerge_nil (a : HeaderMap) : objMerge a [] = a := rfl

theorem objMerge_cons (a : HeaderMap) (p : String × String) (b : HeaderMap) :
    objMerge a (p :: b) = objMerge (objSet a p.1 p.2) b := rfl

theorem objGet_objMerge (a b : HeaderMap) (q : String)
    (hb : (b.map Prod.fst).Nodup) :
    objGet (objMerge a b) q = (objGet b q).or (objGet a q) := by
  induction b generalizing a with
  | nil => simp [objMerge, objGet, Option.or]
  | cons p b ih =>
    simp only [List.map_cons, List.nodup_cons] at hb
    rw [objMerge_cons, ih _ hb.2, objGet_cons]
    by_cases hpq : p.1 = q
    · rw [if_pos hpq]
      have hq_not : q ∉ b.map Prod.fst := hpq ▸ hb.1
      rw [objGet_eq_none_of_not_mem_keys b q hq_not, objGet_objSet,
        if_pos hpq.symm]
      simp [Option.or]
    · rw [if_neg hpq, objGet_objSet, if_neg (fun h => hpq h.symm)]

theorem objGet_eq_some_of_mem_nodup (m : HeaderMap) (k v : String)
    (hnodup : (m.map Prod.fst).Nodup) (hmem : (k, v) ∈ m) :
    objGet m k = some v := by
  induction m with
  | nil => cases hmem
  | cons p m ih =>
    simp only [List.map_cons, List.nodup_cons] at hnodup
    rcases List.mem_cons.1 hmem with h | h
    · subst h
      rw [objGet_cons, if_pos rfl]
    · have hpk : ¬ (p.1 = k) := by
        intro hpk
        exact hnodup.1 (hpk ▸ (List.mem_map.2 ⟨(k, v), h, rfl⟩))
      rw [objGet_cons, if_neg hpk]
      exact ih hnodup.2 h

/-! ## Handler-level helper lemmas -/

theorem convertHandler_forwarding (net : OutboundRequest → ExchangeResult)
    (boundary : String) (req : ConvertRequestBody) (outb : OutboundRequest)
    (h : convertOutbound boundary req = some outb) :
    convertHandler net boundary req = relayResult (net outb) := by
  unfold convertHandler
  cases htr : truthy req.base64Data with
  | none =>
    exfalso
    unfold convertOutbound at h
    rw [htr] at h
    exact Option.noConfusion h
  | some b64 =>
    rw [h]

theorem processFile_fileName (cfg : OrchestratorConfig)
    (call : ConvertRequestBody → CallResult) (f : NsFile) :
    (processFile cfg call f).fileName = f.name := by
  cases hm : getMimeType f.fileType with
  | none => simp [processFile, hm, Outcome.fileName]
  | some mime =>
    cases hc : call (buildPayload cfg f mime) with
    | threw e => simp [processFile, hm, hc, Outcome.fileName]
    | ok r =>
      by_cases h : r.status = 200 ∨ r.status = 201 <;>
        simp [processFile, hm, hc, h, Outcome.fileName]

/-! ## Claim theorems -/

/-- C2: for every forwarded request on either endpoint, whatever status
`st` the upstream returns — 2xx or not — the gateway's response has HTTP
status exactly `st` and a JSON envelope whose `status` field is `st`,
carrying the upstream headers and body; a completed non-2xx exchange
never reaches the local-error 500 branch. -/
theorem c2_upstream_status_passthrough
    (net : OutboundRequest → ExchangeResult) (st : Nat) (uhs : HeaderMap)
    (d : JVal) :
    (∀ boundary creq outb, convertOutbound boundary creq = some outb →
        net outb = .completed st uhs d →
        convertHandler net boundary creq =
          { status := st, headers := [], body := .envelope st uhs d }) ∧
    (∀ freq outb, forwardOutbound freq = some outb →
        net outb = .completed st uhs d →
        forwardHandler net freq =
          { status := st, headers := [], body := .envelope st uhs d }) := by
  constructor
  · intro boundary creq outb hc hnet
    rw [convertHandler_forwarding net boundary creq outb hc, hnet]
    rfl
  · intro freq outb hf hnet
    unfold forwardHandler
    rw [hf]
    show relayResult (net outb) = _
    rw [hnet]
    rfl

/-- C2 witness: on a network answering 404 the convert/forward and the
generic forward endpoints both mirror status 404 in response and body. -/
theorem c2_upstream_status_passthrough_witness :
    convertHandler net404 "XB" reqAuth =
      { status := 404
      , headers := []
      , body := .envelope 404 [("x-request-id", "r1")] (.str "not found") } ∧
    forwardHandler net404 freqSample =
      { status := 404
      , headers := []
      , body := .envelope 404 [("x-request-id", "r1")] (.str "not found") } :=
  ⟨(c2_upstream_status_passthrough net404 404 [("x-request-id", "r1")]
      (.str "not found")).1 "XB" reqAuth _ rfl rfl,
   (c2_upstream_status_passthrough net404 404 [("x-request-id", "r1")]
      (.str "not found")).2 freqSample _ rfl rfl⟩

/-- C5: whenever `forward.url` is present (truthy) in a convert request,
the outbound body is a single-part multipart form whose one field, named
`attachment`, carries the base64-decoded bytes, the given `fileName`
(default `file.bin`) and the given `mimeType` (default
`application/octet-stream`). -/
theorem c5_single_part_multipart (boundary : String) (req : ConvertRequestBody)
    (fwd : ConvertForwardConfig) (url b64 : String)
    (hb : truthy req.base64Data = some b64)
    (hf : req.forward = some fwd)
    (hu : truthy fwd.url = some url) :
    (convertOutbound boundary req).map OutboundRequest.data =
      some (.form [{ fieldName := "attachment"
                   , bytes := bufferFromBase64 b64
                   , filename := req.fileName.getD "file.bin"
                   , contentType := req.mimeType.getD "application/octet-stream" }]) := by
  simp [convertOutbound, hb, hf, hu]

/-- C5 witness: the concrete request with `base64("hello")`, name
`test.txt` and type `text/plain` produces exactly the one-field
`attachment` multipart body with the decoded bytes. -/
theorem c5_single_part_multipart_witness :
    (convertOutbound "XB" reqAuth).map OutboundRequest.data =
      some (.form [{ fieldName := "attachment"
                   , bytes := [104, 101, 108, 108, 111]
                   , filename := "test.txt"
                   , contentType := "text/plain" }]) :=
  c5_single_part_multipart "XB" reqAuth fwdAuth "http://upstream.example/attach"
    "aGVsbG8=" rfl rfl rfl

/-- C7: when the forward attempt itself fails in construction or
transport (as opposed to completing with a non-2xx status), both
endpoints answer HTTP 500 with exactly the generic
`error: Internal server error` body; the response mentions nothing of
the thrown detail. -/
theorem c7_transport_failure_generic_500
    (net : OutboundRequest → ExchangeResult) (detail : String) :
    (∀ boundary creq outb, convertOutbound boundary creq = some outb →
        net outb = .transportFailure detail →
        convertHandler net boundary creq =
          { status := 500, headers := [], body := .errorMsg "Internal server error" }) ∧
    (∀ freq outb, forwardOutbound freq = some outb →
        net outb = .transportFailure detail →
        forwardHandler net freq =
          { status := 500, headers := [], body := .errorMsg "Internal server error" }) := by
  constructor
  · intro boundary creq outb hc hnet
    rw [convertHandler_forwarding net boundary creq outb hc, hnet]
    rfl
  · intro freq outb hf hnet
    unfold forwardHandler
    rw [hf]
    show relayResult (net outb) = _
    rw [hnet]
    rfl

/-- C7 witness: a refused connection yields the generic 500 body on both
endpoints, with no trace of the exception detail. -/
theorem c7_transport_failure_generic_500_witness :
    convertHandler netRefused "XB" reqAuth =
      { status := 500, headers := [], body := .errorMsg "Internal server error" } ∧
    forwardHandler netRefused freqSample =
      { status := 500, headers := [], body := .errorMsg "Internal server error" } :=
  ⟨(c7_transport_failure_generic_500 netRefused
      "connect ECONNREFUSED 51.20.245.218:443").1 "XB" reqAuth _ rfl rfl,
   (c7_transport_failure_generic_500 netRefused
      "connect ECONNREFUSED 51.20.245.218:443").2 freqSample _ rfl rfl⟩

/-- C8: a convert request with non-empty `base64Data` and no forward
target answers 200 with the decoded bytes as body, `Content-Type` equal
to `mimeType` (default `application/octet-stream`) and
`Content-Disposition: attachment; filename="<fileName>"` (default
`file.bin`). -/
theorem c8_direct_return (net : OutboundRequest → ExchangeResult)
    (boundary : String) (req : ConvertRequestBody) (b64 : String)
    (hb : truthy req.base64Data = some b64)
    (hf : req.forward = none) :
    convertHandler net boundary req =
      { status := 200
      , headers :=
          [ ("Content-Type", req.mimeType.getD "application/octet-stream")
          , ("Content-Disposition",
             "attachment; filename=\"" ++ req.fileName.getD "file.bin" ++ "\"") ]
      , body := .binary (bufferFromBase64 b64) } := by
  have hnone : convertOutbound boundary req = none := by
    unfold convertOutbound
    rw [hb, hf]
  unfold convertHandler
  rw [hb, hnone]

/-- C8 witness: `base64("hello")` with name `test.txt` and type
`text/plain` and no forward target yields the direct 200 download
response. -/
theorem c8_direct_return_witness :
    convertHandler net404 "XB" reqNoForward =
      { status := 200
      , headers :=
          [ ("Content-Type", "text/plain")
          , ("Content-Disposition", "attachment; filename=\"test.txt\"") ]
      , body := .binary [104, 101, 108, 108, 111] } :=
  c8_direct_return net404 "XB" reqNoForward "aGVsbG8=" rfl rfl

/-- C10: when the forward object is present but its url is absent or
empty, the gateway issues no outbound request and behaves exactly as if
`forward` were absent, returning the decoded bytes directly. -/
theorem c10_empty_url_like_absent (net : OutboundRequest → ExchangeResult)
    (boundary : String) (req : ConvertRequestBody) (fwd : ConvertForwardConfig)
    (hf : req.forward = some fwd) (hu : truthy fwd.url = none) :
    convertOutbound boundary req = none ∧
    convertHandler net boundary req =
      convertHandler net boundary { req with forward := none } := by
  have hnone : convertOutbound boundary req = none := by
    cases htr : truthy req.base64Data with
    | none => simp [convertOutbound, htr]
    | some b64 => simp [convertOutbound, htr, hf, hu]
  have hnone2 : convertOutbound boundary { req with forward := none } = none := by
    cases htr : truthy req.base64Data with
    | none => simp [convertOutbound, htr]
    | some b64 => simp [convertOutbound, htr]
  refine ⟨hnone, ?_⟩
  cases htr : truthy req.base64Data with
  | none => simp [convertHandler, htr]
  | some b64 => simp [convertHandler, htr, hnone, hnone2]

/-- C10 witness: a forward object with empty url behaves exactly as the
same request without any forward object. -/
theorem c10_empty_url_like_absent_witness :
    convertOutbound "XB" reqEmptyUrl = none ∧
    convertHandler net404 "XB" reqEmptyUrl =
      convertHandler net404 "XB" { reqEmptyUrl with forward := none } :=
  c10_empty_url_like_absent net404 "XB" reqEmptyUrl
    { url := some "", method := some "PUT", headers := some [("Authorization", "Bearer t")] }
    rfl rfl

/-- C6: for every non-empty `base64Data` string, including strings with
characters invalid in base64, the decode step yields a byte sequence
(the decodeable prefix, here by a total function) without raising, and
the request proceeds to the 200/passthrough response instead of the
local 500 branch: with no forward target the handler answers 200 with
the decoded bytes, and with a forward target whose exchange completes it
mirrors the upstream status. -/
theorem c6_permissive_decode (boundary : String) (req : ConvertRequestBody)
    (s : String) (hne : s ≠ "") (hb : req.base64Data = some s) :
    (req.forward = none → ∀ net,
      convertHandler net boundary req =
        { status := 200
        , headers :=
            [ ("Content-Type", req.mimeType.getD "application/octet-stream")
            , ("Content-Disposition",
               "attachment; filename=\"" ++ req.fileName.getD "file.bin" ++ "\"") ]
        , body := .binary (bufferFromBase64 s) }) ∧
    (∀ net outb st uhs d, convertOutbound boundary req = some outb →
      net outb = .completed st uhs d →
      (convertHandler net boundary req).status = st) := by
  have htr : truthy req.base64Data = some s := by
    rw [hb]
    simp [truthy, hne]
  constructor
  · intro hf net
    have hnone : convertOutbound boundary req = none := by
      simp [convertOutbound, htr, hf]
    simp [convertHandler, htr, hnone]
  · intro net outb st uhs d hc hnet
    rw [convertHandler_forwarding net boundary req outb hc, hnet]
    rfl

/-- C6 witness: the string of three characters `!` is invalid base64;
it decodes to the empty byte sequence, the direct response is still 200,
and with a forward target the upstream status 404 is mirrored. -/
theorem c6_permissive_decode_witness :
    convertHandler net404 "XB" reqMalformed =
      { status := 200
      , headers :=
          [ ("Content-Type", "application/octet-stream")
          , ("Content-Disposition", "attachment; filename=\"file.bin\"") ]
      , body := .binary [] } ∧
    (convertHandler net404 "XB" reqMalformedFwd).status = 404 :=
  ⟨(c6_permissive_decode "XB" reqMalformed "!!!" (by decide) rfl).1 rfl net404,
   (c6_permissive_decode "XB" reqMalformedFwd "!!!" (by decide) rfl).2
     net404 _ 404 [("x-request-id", "r1")] (.str "not found") rfl rfl⟩

/-- C1 counterexample: with generated boundary `XB` and a caller
supplying its own `content-type` in `forward.headers`, the outbound
header set of the convert forward is exactly the caller's two headers:
the multipart framing `content-type` carrying the computed boundary has
been overridden and is absent from the outbound request, contradicting
the claim that it is always present. -/
theorem c1_counterexample :
    (convertOutbound "XB" reqConflict).map OutboundRequest.headers =
      some [("content-type", "text/plain"), ("Authorization", "Bearer tok")] ∧
    ("content-type", "multipart/form-data; boundary=XB") ∉
      [("content-type", "text/plain"), ("Authorization", "Bearer tok")] := by
  constructor
  · rfl
  · decide

/-- C1 (amended): in the outbound request of a convert forward, every
caller-supplied header appears unchanged, and the multipart framing
`content-type` with the computed boundary is present whenever the
caller's headers carry no `content-type` key of their own; because the
spread puts `forward.headers` after `formData.getHeaders()`, a caller
`content-type` entry overrides the framing header, not the other way
around. -/
theorem c1_header_merge (boundary : String) (req : ConvertRequestBody)
    (fwd : ConvertForwardConfig) (b64 url : String) (hm : HeaderMap)
    (hb : truthy req.base64Data = some b64)
    (hf : req.forward = some fwd)
    (hu : truthy fwd.url = some url)
    (hh : fwd.headers = some hm)
    (hnodup : (hm.map Prod.fst).Nodup) :
    ∃ outb, convertOutbound boundary req = some outb ∧
      (objGet hm "content-type" = none →
        objGet outb.headers "content-type" =
          some ("multipart/form-data; boundary=" ++ boundary)) ∧
      (∀ k v, (k, v) ∈ hm → objGet outb.headers k = some v) := by
  have houtb : convertOutbound boundary req = some
      { url := url
      , method := falsyOr fwd.method "POST"
      , headers := objMerge (formDataHeaders boundary) hm
      , data := .form [{ fieldName := "attachment"
                       , bytes := bufferFromBase64 b64
                       , filename := req.fileName.getD "file.bin"
                       , contentType := req.mimeType.getD "application/octet-stream" }] } := by
    simp [convertOutbound, hb, hf, hu, hh]
  refine ⟨_, houtb, ?_, ?_⟩
  · intro hct
    show objGet (objMerge (formDataHeaders boundary) hm) "content-type" = _
    rw [objGet_objMerge _ _ _ hnodup, hct]
    show objGet (formDataHeaders boundary) "content-type" = _
    rw [formDataHeaders, objGet_cons]
    rfl
  · intro k v hmem
    show objGet (objMerge (formDataHeaders boundary) hm) k = some v
    rw [objGet_objMerge _ _ _ hnodup, objGet_eq_some_of_mem_nodup hm k v hnodup hmem]
    rfl

/-- C1 witness (amended claim): with an authorization-only caller header
set, the outbound request carries both the framing `content-type` with
the boundary and the unchanged authorization header. -/
theorem c1_header_merge_witness :
    ∃ outb, convertOutbound "XB" reqAuth = some outb ∧
      objGet outb.headers "content-type" =
        some ("multipart/form-data; boundary=" ++ "XB") ∧
      objGet outb.headers "Authorization" = some "Zoho-oauthtoken tok" := by
  obtain ⟨outb, h1, h2, h3⟩ :=
    c1_header_merge "XB" reqAuth fwdAuth "aGVsbG8=" "http://upstream.example/attach"
      [("Authorization", "Zoho-oauthtoken tok")] rfl rfl rfl rfl (by decide)
  exact ⟨outb, h1, h2 rfl, h3 "Authorization" "Zoho-oauthtoken tok" (by decide)⟩

/-- C9: with the configured key derived from the environment, a request
to any operation path other than the liveness probe passes the gate
exactly when it carries `x-api-key` equal to the configured value; a
missing, empty, or mismatched key gets the 401 unauthorized response;
`/health` alone skips the check for every key and answers 200 with the
ok body. -/
theorem c9_auth_gate (env : Option String) (path : String)
    (key : Option String) (hpath : path ∈ operationPaths)
    (hnh : path ≠ "/health") :
    (authGate (apiKeyOf env) path key = none ↔ key = some (apiKeyOf env)) ∧
    (∀ r, authGate (apiKeyOf env) path key = some r →
      r.status = 401 ∧ r.body = .unauthorized "Unauthorized"
        "Invalid or missing API key. Please provide valid x-api-key header.") ∧
    (∀ k, authGate (apiKeyOf env) "/health" k = none) ∧
    healthHandler = { status := 200, headers := [], body := .statusOk } := by
  have hkey : apiKeyOf env ≠ "" := by
    cases env with
    | none => decide
    | some s =>
      by_cases h : s = ""
      · simp only [apiKeyOf, falsyOr, if_pos h]
        decide
      · simp only [apiKeyOf, falsyOr, if_neg h]
        exact h
  have hslash : path ≠ "/" := by
    simp [operationPaths] at hpath
    rcases hpath with h | h | h | h
    · subst h; decide
    · subst h; decide
    · exact absurd h hnh
    · subst h; decide
  have hcond : ¬ (path = "/health" ∨ path = "/") := by
    rintro (h | h)
    · exact hnh h
    · exact hslash h
  refine ⟨?_, ?_, ?_, rfl⟩
  · cases key with
    | none =>
      have h1 : authGate (apiKeyOf env) path none = some unauthorizedResp := by
        simp [authGate, hcond, truthy]
      rw [h1]
      simp
    | some k =>
      by_cases hk : k = ""
      · subst hk
        have h1 : authGate (apiKeyOf env) path (some "") = some unauthorizedResp := by
          simp [authGate, hcond, truthy]
        rw [h1]
        constructor
        · intro h
          exact Option.noConfusion h
        · intro h
          exact absurd (Option.some_inj.mp h).symm hkey
      · by_cases hek : k = apiKeyOf env
        · have h1 : authGate (apiKeyOf env) path (some k) = none := by
            simp [authGate, hcond, truthy, hk, hek, hkey]
          rw [h1, hek]
          simp
        · have h1 : authGate (apiKeyOf env) path (some k) = some unauthorizedResp := by
            simp [authGate, hcond, truthy, hk, hek]
          rw [h1]
          constructor
          · intro h
            exact Option.noConfusion h
          · intro h
            exact absurd (Option.some_inj.mp h) hek
  · intro r hr
    cases htk : truthy key with
    | none =>
      have h1 : authGate (apiKeyOf env) path key = some unauthorizedResp := by
        simp [authGate, hcond, htk]
      rw [h1] at hr
      injection hr with h
      rw [← h]
      exact ⟨rfl, rfl⟩
    | some k =>
      by_cases hek : k = apiKeyOf env
      · have h1 : authGate (apiKeyOf env) path key = none := by
          simp [authGate, hcond, htk, hek]
        rw [h1] at hr
        exact Option.noConfusion hr
      · have h1 : authGate (apiKeyOf env) path key = some unauthorizedResp := by
          simp [authGate, hcond, htk, hek]
        rw [h1] at hr
        injection hr with h
        rw [← h]
        exact ⟨rfl, rfl⟩
  · intro k
    unfold authGate
    rw [if_pos (Or.inl rfl)]

/-- C9 witness: with no `API_KEY` environment value, a wrong key on the
generic forward path is rejected, and the health probe passes with no
key at all. -/
theorem c9_auth_gate_witness :
    authGate (apiKeyOf none) "/api/forward" (some "wrong") ≠ none ∧
    authGate (apiKeyOf none) "/health" none = none := by
  obtain ⟨hiff, h401, hhealth, hok⟩ :=
    c9_auth_gate none "/api/forward" (some "wrong") (by decide) (by decide)
  refine ⟨?_, hhealth none⟩
  intro h
  have hw := hiff.1 h
  simp [apiKeyOf, falsyOr] at hw

/-- C3: for every attachment the orchestrator submits (its type tag
mapped to a MIME type), the recorded outcome is classified exactly:
relayed upstream status 200 or 201 gives `success`; any other relayed
status gives `failed` carrying that numeric status; a gateway call that
throws gives `error` carrying the exception detail. -/
theorem c3_outcome_classification (cfg : OrchestratorConfig)
    (call : ConvertRequestBody → CallResult) (f : NsFile) (mime : String)
    (hm : getMimeType f.fileType = some mime) :
    (∀ r, call (buildPayload cfg f mime) = .ok r →
      (r.status = 200 ∨ r.status = 201) →
      processFile cfg call f =
        .success f.name r.code r.status r.data
          "File uploaded successfully to Zoho") ∧
    (∀ r, call (buildPayload cfg f mime) = .ok r →
      ¬ (r.status = 200 ∨ r.status = 201) →
      processFile cfg call f =
        .failed f.name r.code r.status r.data
          ("Zoho upload failed with status: " ++ toString r.status)) ∧
    (∀ e, call (buildPayload cfg f mime) = .threw e →
      processFile cfg call f =
        .error f.name e "Failed to call middleware or parse response") := by
  refine ⟨?_, ?_, ?_⟩
  · intro r hc hst
    simp [processFile, hm, hc, hst]
  · intro r hc hst
    simp [processFile, hm, hc, hst]
  · intro e hc
    simp [processFile, hm, hc]

/-- C3 witness: relayed 201 records success, relayed 429 records failed
carrying 429, and a thrown call records error with the detail. -/
theorem c3_outcome_classification_witness :
    processFile cfgSample callOk201 filePdf =
      .success "bill.pdf" 201 201 (.obj [("id", JVal.str "123")])
        "File uploaded successfully to Zoho" ∧
    processFile cfgSample callOk429 filePdf =
      .failed "bill.pdf" 429 429 (.str "rate limited")
        ("Zoho upload failed with status: " ++ toString (429 : Nat)) ∧
    processFile cfgSample callThrew filePdf =
      .error "bill.pdf" "SSS_REQUEST_TIME_EXCEEDED"
        "Failed to call middleware or parse response" :=
  ⟨(c3_outcome_classification cfgSample callOk201 filePdf "application/pdf"
      rfl).1 _ rfl (by decide),
   (c3_outcome_classification cfgSample callOk429 filePdf "application/pdf"
      rfl).2.1 _ rfl (by decide),
   (c3_outcome_classification cfgSample callThrew filePdf "application/pdf"
      rfl).2.2 _ rfl⟩

/-- C4: over any sequence of discovered attachments, the final report's
`filesProcessed` equals the number discovered, every attachment yields
exactly one result entry, entries appear in discovery order, and no
per-item outcome aborts the loop early. -/
theorem c4_batch_completeness (cfg : OrchestratorConfig)
    (call : ConvertRequestBody → CallResult) (ts : String)
    (files : List NsFile) :
    (runBatch cfg call ts files).filesProcessed = files.length ∧
    (runBatch cfg call ts files).results = files.map (processFile cfg call) ∧
    (runBatch cfg call ts files).results.map Outcome.fileName =
      files.map NsFile.name := by
  refine ⟨by simp [runBatch], rfl, ?_⟩
  simp [runBatch, List.map_map, Function.comp, processFile_fileName]

end Middleware
